import Mathlib

/-!
Verification development for the `langchain-nextjs-chat` repository.

The repository wires a Next.js chat front end to LangChain workflows:
a retrieval-augmented generation endpoint (`app/api/chat/retrieval/route.ts`),
a tool-using agent endpoint (second handler in the same file), a plain chat
endpoint, a structured-output endpoint, and two Supabase/pgvector SQL setup
scripts defining the `match_documents` similarity function.

This file shallowly embeds the handler logic and the SQL function as pure
Lean definitions and proves the spec's testable properties about them.
External collaborators (the chat model, the embedding provider, the vector
store client) are modelled as explicit function parameters; the glue code
written by the repository is translated faithfully.
-/

/- ## JSON values

Model of the JavaScript/JSONB value universe used for document metadata,
request bodies and serialized responses.  Numbers are modelled as integers
(the metadata produced by the ingestion path only carries integer fields). -/

inductive Json where
  | null : Json
  | bool (b : Bool) : Json
  | num (n : Int) : Json
  | str (s : String) : Json
  | arr (elems : List Json) : Json
  | obj (fields : List (String × Json)) : Json

mutual

/-- Structural equality test on JSON values. -/
def Json.beq : Json → Json → Bool
  | .null, .null => true
  | .bool a, .bool b => a == b
  | .num a, .num b => a == b
  | .str a, .str b => a == b
  | .arr xs, .arr ys => Json.beqElems xs ys
  | .obj fs, .obj gs => Json.beqFields fs gs
  | _, _ => false

/-- Structural equality test on JSON array elements. -/
def Json.beqElems : List Json → List Json → Bool
  | [], [] => true
  | x :: xs, y :: ys => Json.beq x y && Json.beqElems xs ys
  | _, _ => false

/-- Structural equality test on JSON object fields. -/
def Json.beqFields : List (String × Json) → List (String × Json) → Bool
  | [], [] => true
  | (k, v) :: fs, (k2, v2) :: gs => k == k2 && Json.beq v v2 && Json.beqFields fs gs
  | _, _ => false

end

instance : BEq Json := ⟨Json.beq⟩

/-- JSON string escaping as performed by JavaScript `JSON.stringify`:
quotes, backslashes and common control characters are escaped. -/
def jsonEscapeChar (c : Char) : String :=
  if c = '"' then "\\\""
  else if c = '\\' then "\\\\"
  else if c = '\n' then "\\n"
  else if c = '\r' then "\\r"
  else if c = '\t' then "\\t"
  else String.singleton c

/-- Serialize a string to a quoted JSON string literal. -/
def jsonQuote (s : String) : String :=
  "\"" ++ String.join (s.toList.map jsonEscapeChar) ++ "\""

mutual

/-- Model of JavaScript `JSON.stringify` on the `Json` universe. -/
def jsonStringify : Json → String
  | .null => "null"
  | .bool true => "true"
  | .bool false => "false"
  | .num n => toString n
  | .str s => jsonQuote s
  | .arr xs => "[" ++ jsonStringifyElems xs ++ "]"
  | .obj fs => "\x7b" ++ jsonStringifyFields fs ++ "\x7d"

/-- Comma-separated serialization of JSON array elements. -/
def jsonStringifyElems : List Json → String
  | [] => ""
  | [x] => jsonStringify x
  | x :: y :: xs => jsonStringify x ++ "," ++ jsonStringifyElems (y :: xs)

/-- Comma-separated serialization of JSON object fields. -/
def jsonStringifyFields : List (String × Json) → String
  | [] => ""
  | [(k, v)] => jsonQuote k ++ ":" ++ jsonStringify v
  | (k, v) :: f :: fs =>
      jsonQuote k ++ ":" ++ jsonStringify v ++ "," ++ jsonStringifyFields (f :: fs)

end

/-- Model of the PostgreSQL JSONB containment operator `@>` as used by the
`match_documents` metadata filter (`documents.metadata @> filter`): every
field of the filter object must appear in the metadata object with an equal
value.  (LangChain emits flat equality filters, so containment on nested
values is modelled by structural equality.) -/
def jsonContains (a b : Json) : Bool :=
  match a, b with
  | .obj fs, .obj gs =>
      gs.all (fun g => fs.any (fun f => f.fst == g.fst && Json.beq f.snd g.snd))
  | .arr xs, .arr ys => ys.all (fun y => xs.any (fun x => Json.beq x y))
  | x, y => Json.beq x y

/- ## Base64

Model of Node's `Buffer.from(utf8String).toString("base64")`:
standard-alphabet base64 over the UTF-8 bytes of the string. -/

/-- The standard base64 alphabet. -/
def base64Alphabet : List Char :=
  "ABCDEFGHIJKLMNOPQRSTUVWXYZabcdefghijklmnopqrstuvwxyz0123456789+/".toList

/-- The base64 digit for a 6-bit group. -/
def base64Digit (n : Nat) : Char :=
  base64Alphabet.getD n 'A'

/-- Base64-encode a byte sequence (standard alphabet, `=` padding). -/
def base64EncodeBytes : List Nat → String
  | [] => ""
  | [b0] =>
      String.mk [base64Digit (b0 / 4), base64Digit (b0 % 4 * 16)] ++ "=="
  | [b0, b1] =>
      String.mk [base64Digit (b0 / 4), base64Digit (b0 % 4 * 16 + b1 / 16),
        base64Digit (b1 % 16 * 4)] ++ "="
  | b0 :: b1 :: b2 :: bs =>
      String.mk [base64Digit (b0 / 4), base64Digit (b0 % 4 * 16 + b1 / 16),
        base64Digit (b1 % 16 * 4 + b2 / 64), base64Digit (b2 % 64)] ++
        base64EncodeBytes bs

/-- Model of `Buffer.from(s).toString("base64")`: base64 over UTF-8 bytes. -/
def base64Encode (s : String) : String :=
  base64EncodeBytes (s.toUTF8.toList.map (fun b => b.toNat))

/- ## HTTP-level model

Messages as sent by the Vercel AI SDK front end, HTTP responses, and the
JavaScript error values caught by the route handlers. -/

/-- A chat message in the Vercel AI SDK wire shape (`Message` from `ai`):
a role string and text content.  `tool_calls`, when present on assistant
messages, is modelled by `hasToolCalls`. -/
structure VercelMsg where
  role : String
  content : String
  hasToolCalls : Bool := false
deriving DecidableEq, Repr

/-- A thrown JavaScript error value as observed by the route handlers:
`e.message` and the optional `e.status` field. -/
structure JsError where
  message : String
  status : Option Nat
deriving DecidableEq, Repr

/-- An HTTP response produced by a route handler: a status code, a body
(for a streaming response, the concatenation of the streamed chunks), and
response headers. -/
structure HttpResponse where
  status : Nat
  body : String
  headers : List (String × String)
deriving DecidableEq, Repr

/-- Look up a response header value by name. -/
def headerValue (r : HttpResponse) (name : String) : Option String :=
  (r.headers.find? (fun p => p.fst = name)).map Prod.snd

/-- Model of `NextResponse.json({ error: e.message }, { status: e.status ?? 500 })`:
the error response produced by every route handler's catch block. -/
def jsonErrorResponse (e : JsError) : HttpResponse :=
  { status := e.status.getD 500,
    body := jsonStringify (Json.obj [("error", Json.str e.message)]),
    headers := [] }

/-- The shared `try { ... } catch (e) { return NextResponse.json({ error:
e.message }, { status: e.status ?? 500 }) }` shape wrapping the body of
every workflow route handler (retrieval route, agent route, chat route,
structured-output route).  The handler body either produces a response or
throws a `JsError`; the wrapper turns every thrown error into the JSON
error response. -/
def handleWorkflowRequest (handlerBody : Except JsError HttpResponse) : HttpResponse :=
  match handlerBody with
  | .ok r => r
  | .error e => jsonErrorResponse e

/- ## Retrieval endpoint (`app/api/chat/retrieval/route.ts`)

The external collaborators (chat model, retriever backed by the vector
store) are explicit parameters; the chain plumbing, prompt templates and
response packaging are translated from the source. -/

/-- A LangChain `Document`: a text span plus opaque metadata. -/
structure Document where
  pageContent : String
  metadata : Json

/-- The external collaborators of the retrieval route: the chat model
(one call: prompt string in, generated text out) and the vector-store
retriever (query string in, retrieved documents out). -/
structure Externals where
  chatModel : String → String
  retrieve : String → List Document

/-- Definition of `combineDocumentsFn`: join the page contents of the retrieved
documents with blank-line separators. -/
def combineDocumentsFn (docs : List Document) : String :=
  String.intercalate "\n\n" (docs.map (fun doc => doc.pageContent))

/-- Definition of `formatVercelMessages`: render the chat history as plain dialogue
lines (`Human:` / `Assistant:` / literal role prefix), joined with
newlines. -/
def formatVercelMessages (chatHistory : List VercelMsg) : String :=
  String.intercalate "\n"
    (chatHistory.map (fun message =>
      if message.role = "user" then "Human: " ++ message.content
      else if message.role = "assistant" then "Assistant: " ++ message.content
      else message.role ++ ": " ++ message.content))

/-- The `CONDENSE_QUESTION_TEMPLATE` applied to concrete `chat_history` and
`question` values (LangChain `PromptTemplate` substitution). -/
def condenseQuestionPrompt (chatHistory question : String) : String :=
  "Given the following conversation and a follow up question, rephrase the follow up question to be a standalone question, in its original language.\n\n<chat_history>\n  "
    ++ chatHistory ++ "\n</chat_history>\n\nFollow Up Input: " ++ question
    ++ "\nStandalone question:"

/-- The `ANSWER_TEMPLATE` applied to concrete `context`, `chat_history` and
`question` values. -/
def answerPrompt (context chatHistory question : String) : String :=
  "你是一只名叫Dana的精力充沛的会说话的小狗，你默认说中文，必须像一只快乐会说话的狗一样回答所有问题。\n使用大量双关语！\n\n仅根据以下上下文和聊天记录回答问题：\n\n<context>\n  "
    ++ context ++ "\n</context>\n\n<chat_history>\n  " ++ chatHistory
    ++ "\n</chat_history>\n\nQuestion: " ++ question ++ "\n"

/-- The input record flowing through the chains: the `question` and
`chat_history` fields. -/
structure ChainInput where
  question : String
  chat_history : String

/-- Definition of `standaloneQuestionChain = condenseQuestionPrompt → model →
StringOutputParser`: formats the condense template and runs the model;
the string output parser is the identity on the generated text. -/
def standaloneQuestionChain (ext : Externals) (input : ChainInput) : String :=
  ext.chatModel (condenseQuestionPrompt input.chat_history input.question)

/-- Definition of `retrievalChain = retriever.pipe(combineDocumentsFn)`: retrieve
documents for a query and join them into a context string. -/
def retrievalChain (ext : Externals) (query : String) : String :=
  combineDocumentsFn (ext.retrieve query)

/-- The first stage of `answerChain`'s `context` sub-sequence:
`(input) => input.question`, passing the standalone question through
unchanged. -/
def contextInputStage (input : ChainInput) : String :=
  input.question

/-- The query string handed to the retriever when `answerChain` runs on
`input`: the `context` sub-sequence pipes `contextInputStage` into
`retrievalChain`, so the retriever receives exactly
`contextInputStage input`. -/
def retrieverQuery (input : ChainInput) : String :=
  contextInputStage input

/-- Definition of `answerChain`: assemble `context` (via the retrieval sub-sequence),
`chat_history` and `question`, fill the answer template, and run the
model. -/
def answerChain (ext : Externals) (input : ChainInput) : String :=
  ext.chatModel
    (answerPrompt (retrievalChain ext (retrieverQuery input))
      input.chat_history input.question)

/-- The input record built by the first stage of
`conversationalRetrievalQAChain`: `question` is the output of
`standaloneQuestionChain`, `chat_history` is passed through. -/
def conversationalChainInput (ext : Externals) (input : ChainInput) : ChainInput :=
  { question := standaloneQuestionChain ext input,
    chat_history := input.chat_history }

/-- Definition of `conversationalRetrievalQAChain`: condense the question, then run
`answerChain`; the `BytesOutputParser` leaves the text unchanged (it only
byte-encodes it for transport). -/
def conversationalRetrievalQAChain (ext : Externals) (input : ChainInput) : String :=
  answerChain ext (conversationalChainInput ext input)

/-- The query string the retriever receives for a whole request: the
standalone question produced by `standaloneQuestionChain`, passed through
`conversationalRetrievalQAChain`'s plumbing into `answerChain`'s
retrieval sub-sequence. -/
def retrieverQueryOfRequest (ext : Externals) (input : ChainInput) : String :=
  retrieverQuery (conversationalChainInput ext input)

/-- The documents captured by the `handleRetrieverEnd` callback and
resolved into `documentPromise`: the documents the retriever returned for
the query it received. -/
def retrievedDocuments (ext : Externals) (input : ChainInput) : List Document :=
  ext.retrieve (retrieverQueryOfRequest ext input)

/-- One entry of the serialized sources array:
`{ pageContent: doc.pageContent.slice(0, 50) + "...", metadata:
doc.metadata }`. -/
def sourceEntry (doc : Document) : Json :=
  Json.obj [("pageContent", Json.str (doc.pageContent.take 50 ++ "...")),
    ("metadata", doc.metadata)]

/-- Definition of `serializedSources`: base64 of the JSON serialization of the mapped
document array. -/
def serializedSources (documents : List Document) : String :=
  base64Encode (jsonStringify (Json.arr (documents.map sourceEntry)))

/-- The retrieval route `POST` handler body, for a parsed `messages`
list.  An empty list crashes on `messages[messages.length - 1].content`
(property access on `undefined` throws a `TypeError`, which carries no
`status` field); otherwise the handler runs the chain, awaits the
retrieved documents, and returns the streamed answer with the
`x-message-index` and `x-sources` headers. -/
def retrievalHandlerBody (ext : Externals) (messages : List VercelMsg) :
    Except JsError HttpResponse :=
  match messages.getLast? with
  | none =>
      .error { message := "Cannot read properties of undefined (reading content)",
               status := none }
  | some lastMessage =>
      let previousMessages := messages.dropLast
      let currentMessageContent := lastMessage.content
      let input : ChainInput :=
        { question := currentMessageContent,
          chat_history := formatVercelMessages previousMessages }
      let stream := conversationalRetrievalQAChain ext input
      let documents := retrievedDocuments ext input
      .ok { status := 200,
            body := stream,
            headers := [("x-message-index", toString (previousMessages.length + 1)),
              ("x-sources", serializedSources documents)] }

/-- The full retrieval route `POST` handler: the body wrapped in the
shared try/catch. -/
def retrievalPOST (ext : Externals) (messages : List VercelMsg) : HttpResponse :=
  handleWorkflowRequest (retrievalHandlerBody ext messages)

/- ## Vector store: the `match_documents` SQL functions

`SUPABASE_SETUP.sql` and `SUPABASE_SETUP_grok.sql` define the pgvector
similarity function backing the retriever.  Embeddings are modelled as
real vectors; `<=>` is pgvector's cosine-distance operator. -/

/-- Dot product of two vectors (componentwise up to the shorter length). -/
def dotProduct (a b : List ℝ) : ℝ :=
  (List.zipWith (fun x y => x * y) a b).sum

/-- Euclidean norm of a vector. -/
noncomputable def vecNorm (a : List ℝ) : ℝ :=
  Real.sqrt (dotProduct a a)

/-- Cosine similarity of two vectors. -/
noncomputable def cosineSimilarity (a b : List ℝ) : ℝ :=
  dotProduct a b / (vecNorm a * vecNorm b)

/-- pgvector's `<=>` cosine-distance operator: `1 - cosine similarity`. -/
noncomputable def pgCosineDistance (a b : List ℝ) : ℝ :=
  1 - cosineSimilarity a b

/-- A row of the `documents` table: id, text content, metadata, and the
stored embedding vector. -/
structure DocRow where
  id : Nat
  content : String
  metadata : Json
  embedding : List ℝ

/-- A row returned by `match_documents`: id, content, metadata, and the
computed similarity score. -/
structure MatchResult where
  id : Nat
  content : String
  metadata : Json
  similarity : ℝ

/-- The `WHERE` clause of `SUPABASE_SETUP.sql`'s `match_documents`:
`CASE WHEN filter IS NOT NULL THEN documents.metadata @> filter ELSE TRUE
END`. -/
def rowPassesFilter (row : DocRow) (filterArg : Option Json) : Bool :=
  match filterArg with
  | some f => jsonContains row.metadata f
  | none => true

/-- The comparison used by `ORDER BY documents.embedding <=>
query_embedding`: ascending cosine distance to the query. -/
noncomputable def distanceLe (queryEmbedding : List ℝ) (r s : DocRow) : Bool :=
  decide (pgCosineDistance r.embedding queryEmbedding ≤
    pgCosineDistance s.embedding queryEmbedding)

/-- The `SELECT` row shape of `match_documents`: id, content, metadata,
and `1 - (documents.embedding <=> query_embedding) AS similarity`. -/
noncomputable def selectRow (queryEmbedding : List ℝ) (row : DocRow) : MatchResult :=
  { id := row.id, content := row.content, metadata := row.metadata,
    similarity := 1 - pgCosineDistance row.embedding queryEmbedding }

/-- Definition of `match_documents` from `SUPABASE_SETUP.sql`: keep the rows passing
the metadata filter, order them by ascending cosine distance to the query
(descending similarity), truncate to `match_count` rows, and return each
with its similarity score. -/
noncomputable def matchDocuments (rows : List DocRow) (queryEmbedding : List ℝ)
    (matchCount : Nat) (filterArg : Option Json) : List MatchResult :=
  ((((rows.filter (fun r => rowPassesFilter r filterArg)).mergeSort
      (distanceLe queryEmbedding)).take matchCount).map
    (selectRow queryEmbedding))

/-- The `WHERE` clause of `SUPABASE_SETUP_grok.sql`'s `match_documents`:
`1 - (documents.embedding <=> query_embedding) > match_threshold`. -/
noncomputable def rowPassesThreshold (queryEmbedding : List ℝ)
    (matchThreshold : ℝ) (row : DocRow) : Bool :=
  decide (1 - pgCosineDistance row.embedding queryEmbedding > matchThreshold)

/-- Definition of `match_documents` from `SUPABASE_SETUP_grok.sql`: keep the rows whose
similarity exceeds `match_threshold` (default 0.78), order by ascending
cosine distance, truncate to `match_count` rows, and return each with its
similarity score. -/
noncomputable def matchDocumentsGrok (rows : List DocRow) (queryEmbedding : List ℝ)
    (matchThreshold : ℝ) (matchCount : Nat) : List MatchResult :=
  ((((rows.filter (rowPassesThreshold queryEmbedding matchThreshold)).mergeSort
      (distanceLe queryEmbedding)).take matchCount).map
    (selectRow queryEmbedding))

/- ## Agent endpoint (second handler of `route.ts`)

The LangGraph agent itself is external; the repository's own logic is the
message filtering/conversion before the agent call and the event-stream
filtering in streaming mode. -/

/-- A LangChain message as built by
`convertVercelMessageToLangChainMessage`: `HumanMessage`, `AIMessage`, or
generic `ChatMessage` with an explicit role. -/
inductive LCMessage where
  | human (content : String) : LCMessage
  | ai (content : String) : LCMessage
  | chat (content : String) (role : String) : LCMessage
deriving DecidableEq, Repr

/-- Definition of `convertVercelMessageToLangChainMessage`: `user` becomes
`HumanMessage`, `assistant` becomes `AIMessage`, anything else becomes a
generic `ChatMessage` carrying its role. -/
def convertVercelMessageToLangChainMessage (message : VercelMsg) : LCMessage :=
  if message.role = "user" then .human message.content
  else if message.role = "assistant" then .ai message.content
  else .chat message.content message.role

/-- The message list the agent route builds from the request body before
either branch runs: filter to `user`/`assistant` roles, then convert to
LangChain messages. -/
def agentMessages (bodyMessages : List VercelMsg) : List LCMessage :=
  (bodyMessages.filter (fun message =>
      message.role == "user" || message.role == "assistant")).map
    convertVercelMessageToLangChainMessage

/-- The call the agent route makes into the LangGraph agent: streaming
mode calls `agent.streamEvents({ messages }, ...)`, full-trace mode calls
`agent.invoke({ messages })`. -/
inductive AgentCall where
  | streamEvents (messages : List LCMessage) : AgentCall
  | invoke (messages : List LCMessage) : AgentCall
deriving DecidableEq, Repr

/-- The message list carried by an agent call. -/
def AgentCall.messages : AgentCall → List LCMessage
  | .streamEvents msgs => msgs
  | .invoke msgs => msgs

/-- The agent call issued by the `POST` handler: both branches pass the
same filtered, converted `messages` value; only the call style depends on
`show_intermediate_steps`. -/
def agentPOSTCall (returnIntermediateSteps : Bool) (bodyMessages : List VercelMsg) :
    AgentCall :=
  let messages := agentMessages bodyMessages
  if returnIntermediateSteps then .invoke messages else .streamEvents messages

/-- An event produced by `agent.streamEvents`: the event type string and
the text content of `data.chunk` (empty when the chunk carries only a
tool call, or when the event has no chunk). -/
structure StreamEvent where
  event : String
  chunkContent : String
deriving DecidableEq, Repr

/-- The `ReadableStream` transform of the streaming branch: iterate over
the agent's events and enqueue `data.chunk.content` exactly for
`on_chat_model_stream` events whose content is truthy (non-empty); all
other events contribute nothing.  The result is the list of enqueued
chunks in order. -/
def transformStream : List StreamEvent → List String
  | [] => []
  | e :: rest =>
      if e.event = "on_chat_model_stream" then
        if e.chunkContent ≠ "" then e.chunkContent :: transformStream rest
        else transformStream rest
      else transformStream rest

/- ## Helper lemmas -/

/-- A vector's dot product with itself is a sum of squares, hence
nonnegative. -/
theorem dotProduct_self_nonneg (a : List ℝ) : 0 ≤ dotProduct a a := by
  induction a with
  | nil => simp [dotProduct]
  | cons x xs ih =>
      have hx : 0 ≤ x * x := mul_self_nonneg x
      simpa [dotProduct, List.zipWith_cons_cons] using add_nonneg hx ih

/-- Cauchy–Schwarz for the list dot product. -/
theorem dotProduct_sq_le (a : List ℝ) :
    ∀ b : List ℝ, dotProduct a b ^ 2 ≤ dotProduct a a * dotProduct b b := by
  induction a with
  | nil =>
      intro b
      have hb := dotProduct_self_nonneg b
      simp [dotProduct]
  | cons x xs ih =>
      intro b
      cases b with
      | nil =>
          have ha := dotProduct_self_nonneg (x :: xs)
          simp [dotProduct]
      | cons y ys =>
          have hS := ih ys
          have hA := dotProduct_self_nonneg xs
          have hB := dotProduct_self_nonneg ys
          have hxx : dotProduct (x :: xs) (y :: ys) = x * y + dotProduct xs ys := by
            simp [dotProduct, List.zipWith_cons_cons]
          have haa : dotProduct (x :: xs) (x :: xs) = x * x + dotProduct xs xs := by
            simp [dotProduct, List.zipWith_cons_cons]
          have hbb : dotProduct (y :: ys) (y :: ys) = y * y + dotProduct ys ys := by
            simp [dotProduct, List.zipWith_cons_cons]
          rw [hxx, haa, hbb]
          rcases eq_or_lt_of_le hB with hB0 | hBpos
          · have h1 : dotProduct xs ys ^ 2 ≤ 0 := by
              rw [← hB0, mul_zero] at hS
              exact hS
            have h2 : dotProduct xs ys ^ 2 = 0 := le_antisymm h1 (sq_nonneg _)
            have hs0 : dotProduct xs ys = 0 :=
              pow_eq_zero_iff (two_ne_zero) |>.mp h2
            rw [hs0, ← hB0]
            nlinarith [mul_nonneg hA (sq_nonneg y)]
          · nlinarith [sq_nonneg (x * dotProduct ys ys - y * dotProduct xs ys),
              mul_nonneg (add_nonneg (sq_nonneg y) hB) (sub_nonneg.mpr hS),
              hBpos]

/-- For nonzero vectors, cosine similarity lies in `[-1, 1]`. -/
theorem cosineSimilarity_bounds (a b : List ℝ)
    (ha : 0 < dotProduct a a) (hb : 0 < dotProduct b b) :
    -1 ≤ cosineSimilarity a b ∧ cosineSimilarity a b ≤ 1 := by
  have hD : 0 < vecNorm a * vecNorm b := by
    have h1 : 0 < vecNorm a := Real.sqrt_pos.mpr ha
    have h2 : 0 < vecNorm b := Real.sqrt_pos.mpr hb
    exact mul_pos h1 h2
  have habs : |dotProduct a b| ≤ vecNorm a * vecNorm b := by
    have h1 : Real.sqrt (dotProduct a b ^ 2) ≤
        Real.sqrt (dotProduct a a * dotProduct b b) :=
      Real.sqrt_le_sqrt (dotProduct_sq_le a b)
    have h2 : Real.sqrt (dotProduct a b ^ 2) = |dotProduct a b| :=
      Real.sqrt_sq_eq_abs _
    have h3 : Real.sqrt (dotProduct a a * dotProduct b b) = vecNorm a * vecNorm b :=
      Real.sqrt_mul ha.le _
    rw [h2, h3] at h1
    exact h1
  have hq : |cosineSimilarity a b| ≤ 1 := by
    rw [cosineSimilarity, abs_div, abs_of_pos hD]
    exact (div_le_one hD).mpr habs
  exact abs_le.mp hq

/-- Cosine similarity of a nonzero vector with itself is exactly `1`. -/
theorem cosineSimilarity_self (a : List ℝ) (ha : 0 < dotProduct a a) :
    cosineSimilarity a a = 1 := by
  have h : vecNorm a * vecNorm a = dotProduct a a := Real.mul_self_sqrt ha.le
  rw [cosineSimilarity, h]
  exact div_self ha.ne'

/-- The `ORDER BY` comparison is transitive. -/
theorem distanceLe_trans_lemma (q : List ℝ) (a b c : DocRow)
    (hab : distanceLe q a b = true) (hbc : distanceLe q b c = true) :
    distanceLe q a c = true := by
  simp only [distanceLe, decide_eq_true_eq] at *
  exact le_trans hab hbc

/-- The `ORDER BY` comparison is total. -/
theorem distanceLe_total_lemma (q : List ℝ) (a b : DocRow) :
    (distanceLe q a b || distanceLe q b a) = true := by
  simp only [distanceLe, Bool.or_eq_true, decide_eq_true_eq]
  exact le_total _ _

/-- The filter → sort → limit → project pipeline shared by both SQL
variants yields a sequence whose similarities are adjacently
non-increasing and whose length is at most the limit. -/
theorem sortedPipeline_chain_and_length (q : List ℝ) (l : List DocRow) (k : Nat) :
    List.Chain' (fun a b => b.similarity ≤ a.similarity)
      (((l.mergeSort (distanceLe q)).take k).map (selectRow q)) ∧
    (((l.mergeSort (distanceLe q)).take k).map (selectRow q)).length ≤ k := by
  constructor
  · have hp : List.Pairwise (fun a b => distanceLe q a b = true)
        (l.mergeSort (distanceLe q)) :=
      List.sorted_mergeSort (distanceLe_trans_lemma q) (distanceLe_total_lemma q) l
    have hp2 : List.Pairwise (fun a b => distanceLe q a b = true)
        ((l.mergeSort (distanceLe q)).take k) :=
      List.Pairwise.sublist (List.take_sublist k _) hp
    have hp3 : List.Pairwise
        (fun a b => (selectRow q b).similarity ≤ (selectRow q a).similarity)
        ((l.mergeSort (distanceLe q)).take k) := by
      refine hp2.imp ?_
      intro a b hab
      simp only [distanceLe, decide_eq_true_eq] at hab
      simp only [selectRow]
      exact sub_le_sub_left hab 1
    have hp4 : List.Pairwise (fun a b => b.similarity ≤ a.similarity)
        (((l.mergeSort (distanceLe q)).take k).map (selectRow q)) :=
      List.pairwise_map.mpr hp3
    exact hp4.chain'
  · rw [List.length_map]
    exact List.length_take_le k _

/- ## Claim theorems -/

/-- C1 counterexample: for the request body holding three messages (a
two-message history plus the latest question), the retrieval route sets
`x-message-index` to `"3"`, while the count of prior messages is `2` —
the header does not equal the history length. -/
theorem xMessageIndex_counterexample :
    headerValue
        (retrievalPOST ⟨fun _ => "", fun _ => []⟩
          [⟨"user", "hi", false⟩, ⟨"assistant", "hello", false⟩,
            ⟨"user", "why", false⟩])
        "x-message-index" = some "3" ∧
    ([⟨"user", "hi", false⟩, ⟨"assistant", "hello", false⟩,
        ⟨"user", "why", false⟩] : List VercelMsg).dropLast.length = 2 ∧
    some "3" ≠ some (toString 2) := by
  refine ⟨?_, by decide, by decide⟩
  rfl

/-- C1 (amended): for every nonempty message list, the retrieval route's
`x-message-index` header equals the count of prior messages (the history
length) plus one, rendered as a decimal string. -/
theorem xMessageIndex_eq_history_length_succ (ext : Externals)
    (messages : List VercelMsg) (h : messages ≠ []) :
    headerValue (retrievalPOST ext messages) "x-message-index" =
      some (toString (messages.dropLast.length + 1)) := by
  obtain ⟨last, hlast⟩ := Option.isSome_iff_exists.mp (List.getLast?_isSome.mpr h)
  simp [retrievalPOST, retrievalHandlerBody, hlast, handleWorkflowRequest,
    headerValue, List.find?]

/-- C1 witness: the amended statement at a concrete one-message request:
the header is `"1"`, i.e. history length `0` plus one. -/
theorem xMessageIndex_eq_history_length_succ_witness :
    ([⟨"user", "hi", false⟩] : List VercelMsg) ≠ [] ∧
    headerValue (retrievalPOST ⟨fun _ => "", fun _ => []⟩
        [⟨"user", "hi", false⟩]) "x-message-index" =
      some (toString (([⟨"user", "hi", false⟩] : List VercelMsg).dropLast.length + 1)) :=
  ⟨by decide,
    xMessageIndex_eq_history_length_succ ⟨fun _ => "", fun _ => []⟩
      [⟨"user", "hi", false⟩] (by decide)⟩

/-- C5: whenever the standalone-question rewrite produced by
`standaloneQuestionChain` equals the input question itself, the retriever
receives exactly that text as its query, unmodified by the intervening
chain stages. -/
theorem retriever_receives_standalone_question (ext : Externals)
    (question chatHistory : String)
    (h : standaloneQuestionChain ext ⟨question, chatHistory⟩ = question) :
    retrieverQueryOfRequest ext ⟨question, chatHistory⟩ = question := by
  simp [retrieverQueryOfRequest, conversationalChainInput, retrieverQuery,
    contextInputStage, h]

/-- C5 witness: with a model that rewrites every prompt to the fixed
question text, the rewrite equals the question and the retriever query is
that exact text. -/
theorem retriever_receives_standalone_question_witness :
    standaloneQuestionChain ⟨fun _ => "What is pgvector", fun _ => []⟩
        ⟨"What is pgvector", ""⟩ = "What is pgvector" ∧
    retrieverQueryOfRequest ⟨fun _ => "What is pgvector", fun _ => []⟩
        ⟨"What is pgvector", ""⟩ = "What is pgvector" :=
  ⟨rfl, retriever_receives_standalone_question
    ⟨fun _ => "What is pgvector", fun _ => []⟩ "What is pgvector" "" rfl⟩

/-- C6: every thrown failure is caught by the workflow handlers' shared
try/catch and becomes the JSON body `{ error: <message> }` with the
failure's `status` field as HTTP status when present, else `500`; the
wrapper is total, so no failure escapes. -/
theorem caught_failure_yields_json_error (e : JsError) :
    handleWorkflowRequest (.error e) = jsonErrorResponse e ∧
    (jsonErrorResponse e).status = e.status.getD 500 ∧
    (jsonErrorResponse e).body =
      jsonStringify (Json.obj [("error", Json.str e.message)]) :=
  ⟨rfl, rfl, rfl⟩

/-- C7: a request to the retrieval route with an empty `messages` list
yields a JSON error response with status 500 (the crash on
`messages[messages.length - 1].content` is caught), not an empty 200
response. -/
theorem emptyMessages_yields_error (ext : Externals) :
    (retrievalPOST ext []).status = 500 ∧
    (retrievalPOST ext []).body =
      jsonStringify (Json.obj
        [("error",
          Json.str "Cannot read properties of undefined (reading content)")]) ∧
    (retrievalPOST ext []).status ≠ 200 := by
  refine ⟨rfl, rfl, ?_⟩
  intro hc
  simp [retrievalPOST, retrievalHandlerBody, handleWorkflowRequest,
    jsonErrorResponse] at hc

/-- C2: for every query vector, limit, metadata filter and threshold, both
`match_documents` variants return a sequence whose adjacent similarities
are non-increasing (each row is at least as similar as the next) and
which contains at most `match_count` rows. -/
theorem matchDocuments_sorted_within_limit (rows : List DocRow)
    (queryEmbedding : List ℝ) (k : Nat) (filterArg : Option Json)
    (matchThreshold : ℝ) :
    List.Chain' (fun a b => b.similarity ≤ a.similarity)
      (matchDocuments rows queryEmbedding k filterArg) ∧
    (matchDocuments rows queryEmbedding k filterArg).length ≤ k ∧
    List.Chain' (fun a b => b.similarity ≤ a.similarity)
      (matchDocumentsGrok rows queryEmbedding matchThreshold k) ∧
    (matchDocumentsGrok rows queryEmbedding matchThreshold k).length ≤ k := by
  have h1 := sortedPipeline_chain_and_length queryEmbedding
    (rows.filter (fun r => rowPassesFilter r filterArg)) k
  have h2 := sortedPipeline_chain_and_length queryEmbedding
    (rows.filter (rowPassesThreshold queryEmbedding matchThreshold)) k
  exact ⟨h1.1, h1.2, h2.1, h2.2⟩

/-- C3 counterexample: for the stored embedding `[-1]` and the query
vector `[1]`, `match_documents` returns similarity `-1`, which is not in
`[0, 1]`: the cosine-based similarity is negative for vectors pointing in
opposite directions. -/
theorem similarity_unit_interval_counterexample :
    (matchDocuments [⟨1, "t", Json.null, [-1]⟩] [1] 1 none).map
        (fun r => r.similarity) = [(-1 : ℝ)] ∧
    ¬ (0 ≤ (-1 : ℝ)) := by
  constructor
  · have hf : ([⟨1, "t", Json.null, [-1]⟩] : List DocRow).filter
        (fun r => rowPassesFilter r none) = [⟨1, "t", Json.null, [-1]⟩] := rfl
    rw [matchDocuments, hf, List.mergeSort_singleton]
    simp only [List.take_succ_cons, List.take_nil, List.map_cons, List.map_nil,
      selectRow, pgCosineDistance, cosineSimilarity, vecNorm, dotProduct]
    norm_num [Real.sqrt_one]
  · norm_num

/-- C3 (amended): for every query vector and stored rows with nonzero
embeddings, every similarity score returned by `match_documents`
(computed as 1 minus the cosine distance) lies in the interval
`[-1, 1]`. -/
theorem similarity_in_signed_unit_interval (rows : List DocRow)
    (queryEmbedding : List ℝ) (k : Nat) (filterArg : Option Json)
    (hq : 0 < dotProduct queryEmbedding queryEmbedding)
    (hrows : ∀ r ∈ rows, 0 < dotProduct r.embedding r.embedding) :
    ∀ res ∈ matchDocuments rows queryEmbedding k filterArg,
      -1 ≤ res.similarity ∧ res.similarity ≤ 1 := by
  intro res hres
  rw [matchDocuments] at hres
  obtain ⟨row, hrow, hmap⟩ := List.mem_map.mp hres
  have hmem1 : row ∈ (rows.filter (fun r => rowPassesFilter r filterArg)).mergeSort
      (distanceLe queryEmbedding) := List.take_subset _ _ hrow
  have hmem2 : row ∈ rows.filter (fun r => rowPassesFilter r filterArg) :=
    List.mem_mergeSort.mp hmem1
  have hmem3 : row ∈ rows := (List.mem_filter.mp hmem2).1
  have hb := cosineSimilarity_bounds row.embedding queryEmbedding
    (hrows row hmem3) hq
  rw [← hmap]
  simp only [selectRow, pgCosineDistance, sub_sub_cancel]
  exact hb

/-- C3 amended-claim witness: at the sole stored row with embedding `[2]`
and query `[1]`, the hypotheses hold and the returned similarity is in
`[-1, 1]`. -/
theorem similarity_in_signed_unit_interval_witness :
    (0 : ℝ) < dotProduct [1] [1] ∧
    (∀ r ∈ ([⟨2, "t", Json.null, [2]⟩] : List DocRow),
      0 < dotProduct r.embedding r.embedding) ∧
    selectRow [1] ⟨2, "t", Json.null, [2]⟩ ∈
      matchDocuments [⟨2, "t", Json.null, [2]⟩] [1] 1 none ∧
    (-1 ≤ (selectRow [1] ⟨2, "t", Json.null, [2]⟩).similarity ∧
      (selectRow [1] ⟨2, "t", Json.null, [2]⟩).similarity ≤ 1) := by
  have hq : (0 : ℝ) < dotProduct [1] [1] := by norm_num [dotProduct]
  have hrows : ∀ r ∈ ([⟨2, "t", Json.null, [2]⟩] : List DocRow),
      0 < dotProduct r.embedding r.embedding := by
    intro r hr
    rw [List.mem_singleton] at hr
    subst hr
    norm_num [dotProduct]
  have hmm : matchDocuments [⟨2, "t", Json.null, [2]⟩] [1] 1 none =
      [selectRow [1] ⟨2, "t", Json.null, [2]⟩] := by
    have hf : ([⟨2, "t", Json.null, [2]⟩] : List DocRow).filter
        (fun r => rowPassesFilter r none) = [⟨2, "t", Json.null, [2]⟩] := rfl
    rw [matchDocuments, hf, List.mergeSort_singleton]
    rfl
  have hmem : selectRow [1] ⟨2, "t", Json.null, [2]⟩ ∈
      matchDocuments [⟨2, "t", Json.null, [2]⟩] [1] 1 none := by
    rw [hmm]
    exact List.mem_singleton_self _
  exact ⟨hq, hrows, hmem,
    similarity_in_signed_unit_interval _ _ _ _ hq hrows _ hmem⟩

/-- C4: if a chunk is the sole stored row (nonzero embedding) and
`match_documents` is queried with that chunk's own embedding with limit
at least 1, both SQL variants return exactly that chunk with similarity
exactly `1` (the real-arithmetic value approximated by floating point;
the grok variant additionally needs its threshold below 1, as its default
`0.78` is). -/
theorem roundtrip_sole_row_similarity_one (row : DocRow) (k : Nat)
    (matchThreshold : ℝ) (hk : 1 ≤ k)
    (ha : 0 < dotProduct row.embedding row.embedding)
    (ht : matchThreshold < 1) :
    matchDocuments [row] row.embedding k none =
      [⟨row.id, row.content, row.metadata, 1⟩] ∧
    matchDocumentsGrok [row] row.embedding matchThreshold k =
      [⟨row.id, row.content, row.metadata, 1⟩] := by
  have hsim : 1 - pgCosineDistance row.embedding row.embedding = 1 := by
    rw [pgCosineDistance, sub_sub_cancel, cosineSimilarity_self _ ha]
  have hsel : selectRow row.embedding row =
      ⟨row.id, row.content, row.metadata, 1⟩ := by
    rw [selectRow, hsim]
  constructor
  · have hf : ([row] : List DocRow).filter
        (fun r => rowPassesFilter r none) = [row] := rfl
    rw [matchDocuments, hf, List.mergeSort_singleton,
      List.take_of_length_le (by simpa using hk), List.map_cons, List.map_nil,
      hsel]
  · have hp : rowPassesThreshold row.embedding matchThreshold row = true := by
      simp only [rowPassesThreshold, gt_iff_lt, decide_eq_true_eq]
      rw [hsim]
      exact ht
    have hf : ([row] : List DocRow).filter
        (rowPassesThreshold row.embedding matchThreshold) = [row] := by
      rw [List.filter_cons_of_pos hp, List.filter_nil]
    rw [matchDocumentsGrok, hf, List.mergeSort_singleton,
      List.take_of_length_le (by simpa using hk), List.map_cons, List.map_nil,
      hsel]

/-- C4 witness: for the sole stored chunk with embedding `[2]` queried
with `[2]`, limit 3 and the default threshold `0.78`, both variants
return that chunk with similarity `1`. -/
theorem roundtrip_sole_row_similarity_one_witness :
    1 ≤ 3 ∧ (0 : ℝ) < dotProduct [2] [2] ∧ (0.78 : ℝ) < 1 ∧
    matchDocuments [⟨7, "chunk", Json.null, [2]⟩] [2] 3 none =
      [⟨7, "chunk", Json.null, 1⟩] ∧
    matchDocumentsGrok [⟨7, "chunk", Json.null, [2]⟩] [2] 0.78 3 =
      [⟨7, "chunk", Json.null, 1⟩] := by
  have ha : (0 : ℝ) < dotProduct [2] [2] := by norm_num [dotProduct]
  have h := roundtrip_sole_row_similarity_one ⟨7, "chunk", Json.null, [2]⟩ 3
    0.78 (by norm_num) ha (by norm_num)
  exact ⟨by norm_num, ha, by norm_num, h.1, h.2⟩

/-- C8: for every request with a last message, the `x-sources` header of
the retrieval route equals the base64 encoding of the JSON serialization
of the retrieved documents mapped in order to entries with exactly the
fields `pageContent` (the first 50 characters of the chunk text followed
by `...`) and `metadata` (the chunk metadata unchanged). -/
theorem xSources_encodes_truncated_sources (ext : Externals)
    (messages : List VercelMsg) (lastMessage : VercelMsg)
    (h : messages.getLast? = some lastMessage) :
    headerValue (retrievalPOST ext messages) "x-sources" =
      some (serializedSources (retrievedDocuments ext
        ⟨lastMessage.content, formatVercelMessages messages.dropLast⟩)) ∧
    (∀ documents : List Document,
      serializedSources documents =
        base64Encode (jsonStringify (Json.arr (documents.map sourceEntry)))) ∧
    (∀ documents : List Document,
      (documents.map sourceEntry).length = documents.length) ∧
    (∀ doc : Document,
      sourceEntry doc =
        Json.obj [("pageContent", Json.str (doc.pageContent.take 50 ++ "...")),
          ("metadata", doc.metadata)]) := by
  refine ⟨?_, fun _ => rfl, fun documents => List.length_map documents _,
    fun _ => rfl⟩
  simp [retrievalPOST, retrievalHandlerBody, h, handleWorkflowRequest,
    headerValue, List.find?]

/-- C8 witness: the statement applied to a concrete one-message request
with a retriever returning one document. -/
theorem xSources_encodes_truncated_sources_witness :
    ([⟨"user", "q", false⟩] : List VercelMsg).getLast? =
      some ⟨"user", "q", false⟩ ∧
    headerValue (retrievalPOST ⟨fun _ => "", fun _ => [⟨"blue sky", Json.null⟩]⟩
        [⟨"user", "q", false⟩]) "x-sources" =
      some (serializedSources (retrievedDocuments
        ⟨fun _ => "", fun _ => [⟨"blue sky", Json.null⟩]⟩
        ⟨(⟨"user", "q", false⟩ : VercelMsg).content,
          formatVercelMessages ([⟨"user", "q", false⟩] : List VercelMsg).dropLast⟩)) :=
  ⟨rfl,
    (xSources_encodes_truncated_sources
      ⟨fun _ => "", fun _ => [⟨"blue sky", Json.null⟩]⟩
      [⟨"user", "q", false⟩] ⟨"user", "q", false⟩ rfl).1⟩

/-- C9: the streaming branch of the agent route forwards exactly the
text contents of `on_chat_model_stream` events whose chunk content is
non-empty, in order: tool-call-only deltas (empty content) and events of
any other type contribute nothing to the output stream. -/
theorem transformStream_emits_exactly_model_text (events : List StreamEvent) :
    transformStream events =
      (events.filter (fun e =>
        decide (e.event = "on_chat_model_stream" ∧ e.chunkContent ≠ ""))).map
        (fun e => e.chunkContent) := by
  induction events with
  | nil => rfl
  | cons e rest ih =>
      by_cases h1 : e.event = "on_chat_model_stream"
      · by_cases h2 : e.chunkContent = ""
        · simp [transformStream, h1, h2, List.filter_cons, ih]
        · simp [transformStream, h1, h2, List.filter_cons, ih]
      · simp [transformStream, h1, List.filter_cons, ih]

/-- C10: in both streaming and full-trace modes, the message list passed
to the agent is the request's messages restricted to the `user` and
`assistant` roles (converted to LangChain messages); every message
surviving the filter has one of those two roles, so system or tool
messages sent back by the client are dropped. -/
theorem agent_receives_only_user_assistant (returnIntermediateSteps : Bool)
    (bodyMessages : List VercelMsg) :
    (agentPOSTCall returnIntermediateSteps bodyMessages).messages =
      (bodyMessages.filter (fun m =>
        m.role == "user" || m.role == "assistant")).map
        convertVercelMessageToLangChainMessage ∧
    (bodyMessages.filter (fun m =>
      m.role == "user" || m.role == "assistant")).all
      (fun m => m.role == "user" || m.role == "assistant") = true := by
  constructor
  · cases returnIntermediateSteps <;> rfl
  · rw [List.all_eq_true]
    intro m hm
    exact (List.mem_filter.mp hm).2
